import Mathlib

/-
  Shallow embedding of the zenity-dialog crate (src/arg.rs, src/error.rs,
  src/lib.rs, src/dialog.rs and the src/dialog/ submodules) in Lean 4,
  together with theorems settling the specification claims.

  Machine integers are modelled as Int or Nat (no overflow is relevant:
  the code only formats them), Rust Option as Option, Result as Except.
  Platform facilities (process spawning, UTF-8 decoding by
  String::from_utf8) are modelled by their observable results: a spawn
  either fails with an io error of some kind or yields a process output,
  and each captured byte stream is represented by the outcome of its
  UTF-8 decoding, an Except value.
-/

namespace Zenity

/-- Model of std::io::ErrorKind, reduced to the distinctions the code
makes: NotFound is matched explicitly, every other kind falls through. -/
inductive IOErrorKind where
  | NotFound
  | PermissionDenied
  | Interrupted
  | Other
deriving DecidableEq, Repr

/-- Model of std::io::Error: only its kind is observable to this crate. -/
structure IOError where
  kind : IOErrorKind
deriving DecidableEq, Repr

/-- Model of std::string::FromUtf8Error; the crate only stores and
reports it, so the first invalid byte index stands in for its payload. -/
structure FromUtf8Error where
  valid_up_to : Nat
deriving DecidableEq, Repr

/-- Model of anyhow::Error: an opaque wrapped error, represented by its
message string. -/
structure AnyhowError where
  msg : String
deriving DecidableEq, Repr

/-- The crate error enum from src/error.rs. -/
inductive Error where
  | ZenityNotInstalled (e : IOError)
  | UnexpectedIoError (e : IOError)
  | InvalidUtf8FromStdout (e : FromUtf8Error)
  | MissingExitCode
  | ParseResultFailure (e : AnyhowError)
deriving DecidableEq, Repr

/-- Model of std::process::Output as observed by show: the exit code as
returned by status.code() (None when not retrievable), and the results
of UTF-8 decoding the captured stdout and stderr byte streams. -/
structure ProcessOutput where
  code : Option Int
  stdout : Except FromUtf8Error String
  stderr : Except FromUtf8Error String
deriving Repr

/-- Result of Command::output(): either an io error (spawn or
communication failure) or a completed process output. -/
inductive SpawnResult where
  | err (e : IOError)
  | ok (o : ProcessOutput)
deriving Repr

/-- The Arg struct from src/arg.rs. -/
structure Arg where
  name : String
  value : Option String
deriving DecidableEq, Repr

/-- The Display implementation for Arg from src/arg.rs: strip one
leading double dash from the name if present, then write the token.
Rust name.starts_with is rendered at the character level, which agrees
with the byte level here because the pattern is ASCII. -/
def Arg.to_string (a : Arg) : String :=
  let name := if "--".data.isPrefixOf a.name.data then a.name.drop 2 else a.name
  match a.value with
  | some v => "--" ++ name ++ "=" ++ v
  | none => "--" ++ name

/-- The ZenityOutput enum from src/dialog.rs. -/
inductive ZenityOutput where
  | Affirmed
  | AffirmedWithContent (s : String)
  | Rejected
  | RejectedWithContent (s : String)
  | Unknown (exit_code : Int) (stdout : String) (stderr : String)
deriving DecidableEq, Repr

/-- The Month enum shared (textually identical definitions) by
src/dialog.rs and src/dialog/calendar.rs. The source constructor name
Feburary is kept as written. -/
inductive Month where
  | January
  | Feburary
  | March
  | April
  | May
  | June
  | July
  | August
  | September
  | October
  | November
  | December
deriving DecidableEq, Repr

/-- The Display implementation for Month: each month maps to its
numeral, January = 1 through December = 12, written in decimal. -/
def Month.to_string (m : Month) : String :=
  let as_int : Int :=
    match m with
    | Month.January => 1
    | Month.Feburary => 2
    | Month.March => 3
    | Month.April => 4
    | Month.May => 5
    | Month.June => 6
    | Month.July => 7
    | Month.August => 8
    | Month.September => 9
    | Month.October => 10
    | Month.November => 11
    | Month.December => 12
  toString as_int

/-- The Icon enum from src/dialog.rs. PathBuf is modelled as String, so
the to_str conversion of the path always succeeds. -/
inductive Icon where
  | Error
  | Info
  | Question
  | Warning
  | IconPath (path : String)
deriving DecidableEq, Repr

/-- The Display implementation for Icon from src/dialog.rs. -/
def Icon.to_string (i : Icon) : String :=
  match i with
  | Icon.Error => "error"
  | Icon.Info => "info"
  | Icon.Question => "question"
  | Icon.Warning => "warning"
  | Icon.IconPath path => path

/-- Model of std::time::Duration, keeping the whole-seconds part that
as_secs returns, which is all the code reads. -/
structure Duration where
  secs : Nat
deriving DecidableEq, Repr

/-- The InfoOptions struct from src/dialog.rs. -/
structure InfoOptions where
  text : Option String
  ok_label : Option String
  no_wrap : Bool
  no_markup : Bool
  ellipsize : Bool
deriving DecidableEq, Repr

/-- Default for InfoOptions: every field unset. -/
def InfoOptions.new : InfoOptions :=
  { text := none, ok_label := none, no_wrap := false,
    no_markup := false, ellipsize := false }

/-- InfoOptions::get_argv from src/dialog.rs: start from the fixed kind
flag and push one token per set option, in source order. -/
def InfoOptions.get_argv (o : InfoOptions) : List String :=
  let args := ["--info"]
  let args := match o.text with
    | some text => args ++ ["--text=" ++ text]
    | none => args
  let args := match o.ok_label with
    | some ok_label => args ++ ["--ok-label=" ++ ok_label]
    | none => args
  let args := if o.no_wrap then args ++ ["--no-wrap"] else args
  let args := if o.no_markup then args ++ ["--no-markup"] else args
  let args := if o.ellipsize then args ++ ["--ellipsize"] else args
  args

/-- The CalendarOptions struct from src/dialog.rs. -/
structure CalendarOptions where
  text : Option String
  day : Option Nat
  month : Option Month
  year : Option Int
  format : Option String
deriving DecidableEq, Repr

/-- Default for CalendarOptions: every field unset. -/
def CalendarOptions.new : CalendarOptions :=
  { text := none, day := none, month := none, year := none, format := none }

/-- CalendarOptions::get_argv from src/dialog.rs. -/
def CalendarOptions.get_argv (o : CalendarOptions) : List String :=
  let args := ["--calendar"]
  let args := match o.text with
    | some text => args ++ ["--text=" ++ text]
    | none => args
  let args := match o.day with
    | some day => args ++ ["--day=" ++ toString day]
    | none => args
  let args := match o.month with
    | some month => args ++ ["--month=" ++ month.to_string]
    | none => args
  let args := match o.year with
    | some year => args ++ ["--year=" ++ toString year]
    | none => args
  let args := match o.format with
    | some format => args ++ ["--date-format=" ++ format]
    | none => args
  args

/-- The Application enum from src/dialog.rs: one variant per dialog
kind, Info and Calendar carrying their option structs. -/
inductive Application where
  | Info (opts : InfoOptions)
  | Calendar (opts : CalendarOptions)
  | Entry
  | Error
  | FileSelection
  | List
  | Notification
  | Progress
  | Question
  | Warning
  | Scale
  | TextInfo
  | ColorSelection
  | Password
  | Forms
deriving DecidableEq, Repr

/-- Application::get_argv from src/dialog.rs. -/
def Application.get_argv (a : Application) :=
  match a with
  | Application.Calendar args => args.get_argv
  | Application.Entry => ["--entry"]
  | Application.Error => ["--error"]
  | Application.Info args => args.get_argv
  | Application.FileSelection => ["--file-selection"]
  | Application.List => ["--list"]
  | Application.Notification => ["--notification"]
  | Application.Progress => ["--progress"]
  | Application.Question => ["--question"]
  | Application.Warning => ["--warning"]
  | Application.Scale => ["--scale"]
  | Application.TextInfo => ["--text-info"]
  | Application.ColorSelection => ["--color-selection"]
  | Application.Password => ["--password"]
  | Application.Forms => ["--forms"]

/-- The ZenityDialog struct from src/dialog.rs. -/
structure ZenityDialog where
  application : Application
  title : Option String
  icon : Option Icon
  width : Option Nat
  height : Option Nat
  timeout : Option Duration
  extra_button_label : Option String
  modal_hint : Option String
  additional_args : List String
deriving DecidableEq, Repr

/-- The Default implementation for ZenityDialog. -/
def ZenityDialog.default : ZenityDialog :=
  { application := Application.Info InfoOptions.new
    title := none, icon := none, width := none, height := none
    timeout := none, extra_button_label := none, modal_hint := none
    additional_args := [] }

/-- ZenityDialog::new from src/dialog.rs. -/
def ZenityDialog.new (application : Application) : ZenityDialog :=
  { ZenityDialog.default with application := application }

/-- ZenityDialog::get_argv from src/dialog.rs: kind tokens first, then
one token per set shared option in source order (title, icon, width,
height, timeout, extra button, modal hint), then the additional args. -/
def ZenityDialog.get_argv (d : ZenityDialog) : List String :=
  let args := d.application.get_argv
  let args := match d.title with
    | some title => args ++ ["--title=" ++ title]
    | none => args
  let args := match d.icon with
    | some icon => args ++ ["--icon-name=" ++ icon.to_string]
    | none => args
  let args := match d.width with
    | some width => args ++ ["--width=" ++ toString width]
    | none => args
  let args := match d.height with
    | some height => args ++ ["--height=" ++ toString height]
    | none => args
  let args := match d.timeout with
    | some timeout => args ++ ["--timeout=" ++ toString timeout.secs]
    | none => args
  let args := match d.extra_button_label with
    | some extra_button_label => args ++ ["--extra-button=" ++ extra_button_label]
    | none => args
  let args := match d.modal_hint with
    | some modal_hint => args ++ ["--modal=" ++ modal_hint]
    | none => args
  args ++ d.additional_args

/-- The constant ZenityDialog::SUCCESS_CODE. -/
def ZenityDialog.SUCCESS_CODE : Int := 0

/-- The constant ZenityDialog::ERROR_CODE_1. -/
def ZenityDialog.ERROR_CODE_1 : Int := 256

/-- The constant ZenityDialog::ERROR_CODE_2. -/
def ZenityDialog.ERROR_CODE_2 : Int := 1

/-- ZenityDialog::show from src/dialog.rs, with the subprocess
interaction supplied as a SpawnResult. A spawn failure is mapped by
io error kind; stdout is decoded (failure is fatal); a missing exit
code is fatal; then the pair of stdout emptiness and exit code is
matched exactly as in the source. -/
def ZenityDialog.show (_d : ZenityDialog) (spawn : SpawnResult) :
    Except Error ZenityOutput :=
  match spawn with
  | SpawnResult.err e =>
    Except.error (match e.kind with
      | IOErrorKind.NotFound => Error.ZenityNotInstalled e
      | _ => Error.UnexpectedIoError e)
  | SpawnResult.ok output =>
    match output.stdout with
    | Except.error e => Except.error (Error.InvalidUtf8FromStdout e)
    | Except.ok stdout =>
      match output.code with
      | none => Except.error Error.MissingExitCode
      | some code =>
        let result :=
          if stdout.isEmpty && code == ZenityDialog.SUCCESS_CODE then
            ZenityOutput.Affirmed
          else if !stdout.isEmpty && code == ZenityDialog.SUCCESS_CODE then
            ZenityOutput.AffirmedWithContent stdout
          else if stdout.isEmpty &&
              (code == ZenityDialog.ERROR_CODE_1 || code == ZenityDialog.ERROR_CODE_2) then
            ZenityOutput.Rejected
          else if !stdout.isEmpty &&
              (code == ZenityDialog.ERROR_CODE_1 || code == ZenityDialog.ERROR_CODE_2) then
            ZenityOutput.RejectedWithContent stdout
          else
            ZenityOutput.Unknown code stdout
              (match output.stderr with
               | Except.ok s => s
               | Except.error _ => "")
        Except.ok result

/-- Model of chrono NaiveDate (external library): a calendar date. -/
structure NaiveDate where
  year : Int
  month : Nat
  day : Nat
deriving DecidableEq, Repr

/-- Model of the chrono date parse error (external library). -/
structure ChronoParseError where
  msg : String
deriving DecidableEq, Repr

/-- Model of anyhow Error construction from a source error: the wrapped
message is kept. -/
def anyhow_new (e : ChronoParseError) : AnyhowError :=
  { msg := e.msg }

namespace dialog

/-- The Calendar struct from src/dialog/calendar.rs. -/
structure Calendar where
  text : Option String
  day : Option Nat
  month : Option Zenity.Month
  year : Option Int
  format : Option String
deriving DecidableEq, Repr

/-- The constant Calendar::DEFAULT_DATE_FORMAT, used when the chrono
feature is enabled and no custom format is configured. -/
def Calendar.DEFAULT_DATE_FORMAT : String := "%d/%m/%y"

/-- Calendar::parse from src/dialog/calendar.rs with the chrono feature
enabled. The external chrono NaiveDate parse function is supplied as an
argument: it receives the trimmed stdout and the format string (the
configured one, or the default when none is configured), and its error
is wrapped in the ParseResultFailure crate error via anyhow. -/
def Calendar.parse
    (parse_from_str : String → String → Except ChronoParseError NaiveDate)
    (c : Calendar) (stdout : String) : Except Zenity.Error NaiveDate :=
  (parse_from_str stdout.trim
      (c.format.getD Calendar.DEFAULT_DATE_FORMAT)).mapError
    (fun err => Zenity.Error.ParseResultFailure (anyhow_new err))

/-- Calendar::to_argv from src/dialog/calendar.rs. -/
def Calendar.to_argv (o : Calendar) :=
  let args := ["--calendar"]
  let args := match o.text with
    | some text => args ++ ["--text=" ++ text]
    | none => args
  let args := match o.day with
    | some day => args ++ ["--day=" ++ toString day]
    | none => args
  let args := match o.month with
    | some month => args ++ ["--month=" ++ month.to_string]
    | none => args
  let args := match o.year with
    | some year => args ++ ["--year=" ++ toString year]
    | none => args
  let args := match o.format with
    | some format => args ++ ["--date-format=" ++ format]
    | none => args
  args

/-- The Info struct from src/dialog/info.rs. -/
structure Info where
  text : Option String
  ok_label : Option String
  no_wrap : Bool
  no_markup : Bool
  ellipsize : Bool
deriving DecidableEq, Repr

/-- Info::parse from src/dialog/info.rs: the identity on the given
string, returned as a success. -/
def Info.parse (_i : Info) (stdout : String) : Except Zenity.Error String :=
  Except.ok stdout

/-- Info::to_argv from src/dialog/info.rs. -/
def Info.to_argv (o : Info) :=
  let args := ["--info"]
  let args := match o.text with
    | some text => args ++ ["--text=" ++ text]
    | none => args
  let args := match o.ok_label with
    | some ok_label => args ++ ["--ok-label=" ++ ok_label]
    | none => args
  let args := if o.no_wrap then args ++ ["--no-wrap"] else args
  let args := if o.no_markup then args ++ ["--no-markup"] else args
  let args := if o.ellipsize then args ++ ["--ellipsize"] else args
  args

/-- The Entry struct from src/dialog/entry.rs. -/
structure Entry where
  text : Option String
  entry_text : Option String
  hide_text : Bool
deriving DecidableEq, Repr

/-- Entry::parse from src/dialog/entry.rs: the identity on the given
string, returned as a success. -/
def Entry.parse (_e : Entry) (stdout : String) : Except Zenity.Error String :=
  Except.ok stdout

/-- Entry::to_argv from src/dialog/entry.rs. -/
def Entry.to_argv (o : Entry) :=
  let args := ["--entry"]
  let args := match o.text with
    | some text => args ++ ["--text=" ++ text]
    | none => args
  let args := match o.entry_text with
    | some entry_text => args ++ ["--entry-text=" ++ entry_text]
    | none => args
  let args := if o.hide_text then args ++ ["--hide-text"] else args
  args

/-- The Error dialog struct from src/dialog/error.rs. -/
structure Error where
  text : Option String
  no_wrap : Bool
  no_markup : Bool
deriving DecidableEq, Repr

/-- The parse function of the Error dialog from src/dialog/error.rs:
the identity on the given string, returned as a success. -/
def Error.parse (_e : Error) (stdout : String) : Except Zenity.Error String :=
  Except.ok stdout

/-- The to_argv function of the Error dialog from src/dialog/error.rs. -/
def Error.to_argv (o : Error) :=
  let args := ["--error"]
  let args := match o.text with
    | some text => args ++ ["--text=" ++ text]
    | none => args
  let args := if o.no_wrap then args ++ ["--no-wrap"] else args
  let args := if o.no_markup then args ++ ["--no-markup"] else args
  args

end dialog

/-- Modelled from the spec: the outcome type ZenityOutputExtButton is
re-exported by src/lib.rs but its definition is missing from the
sources. Per the data model section of the spec it is the outcome
union of the extra-button-decorated request, adding the
ExtraButtonClicked case that carries the button label content. -/
inductive ZenityOutputExtButton where
  | Affirmed
  | AffirmedWithContent (s : String)
  | Rejected
  | RejectedWithContent (s : String)
  | ExtraButtonClicked (content : String)
  | Unknown (exit_code : Int) (stdout : String) (stderr : String)
deriving DecidableEq, Repr

/-- Modelled from the spec: the wrapper type ZenityDialogExtButton is
re-exported by src/lib.rs but its definition is missing from the
sources. Per the spec it is the extra-button decorator holding the
inner request plus the extra button label. -/
structure ZenityDialogExtButton where
  inner : ZenityDialog
  extra_button_label : String

/-- Modelled from the spec: the inner request with the extra button
label injected, so that the rendered argument vector carries the
additional extra-button token. -/
def ZenityDialogExtButton.decorated (d : ZenityDialogExtButton) : ZenityDialog :=
  { d.inner with extra_button_label := some d.extra_button_label }

/-- Modelled from the spec: the show operation of the extra-button
decorator, missing from the sources. It computes the base outcome with
the extra-button token injected, then remaps a Rejected outcome whose
content exactly equals the configured label to ExtraButtonClicked; all
other outcome shapes pass through field for field. -/
def ZenityDialogExtButton.show (d : ZenityDialogExtButton) (spawn : SpawnResult) :
    Except Error ZenityOutputExtButton :=
  match d.decorated.show spawn with
  | Except.error e => Except.error e
  | Except.ok out =>
    Except.ok (match out with
      | ZenityOutput.Affirmed => ZenityOutputExtButton.Affirmed
      | ZenityOutput.AffirmedWithContent s => ZenityOutputExtButton.AffirmedWithContent s
      | ZenityOutput.Rejected => ZenityOutputExtButton.Rejected
      | ZenityOutput.RejectedWithContent s =>
        if s = d.extra_button_label then
          ZenityOutputExtButton.ExtraButtonClicked d.extra_button_label
        else
          ZenityOutputExtButton.RejectedWithContent s
      | ZenityOutput.Unknown c so se => ZenityOutputExtButton.Unknown c so se)

/-- Helper: render an optional field as zero tokens (unset) or exactly
one token (set). -/
def optToken {α : Type} (o : Option α) (f : α → String) : List String :=
  match o with
  | some x => [f x]
  | none => []

/-- The token list predicted by the wording of the spec for
render_tokens: kind tokens first, then one token per set shared field
in the order title, icon, width, height, timeout, modal hint, then the
accumulated free-form extra tokens. Written from the words of the spec
for comparison against ZenityDialog.get_argv. -/
def spec_render_tokens (d : ZenityDialog) : List String :=
  d.application.get_argv
    ++ optToken d.title (fun t => "--title=" ++ t)
    ++ optToken d.icon (fun i => "--icon-name=" ++ i.to_string)
    ++ optToken d.width (fun w => "--width=" ++ toString w)
    ++ optToken d.height (fun h => "--height=" ++ toString h)
    ++ optToken d.timeout (fun t => "--timeout=" ++ toString t.secs)
    ++ optToken d.modal_hint (fun m => "--modal=" ++ m)
    ++ d.additional_args

/-- The token list predicted by the amended claim: as the spec wording,
with the extra-button field inserted between timeout and modal hint. -/
def spec_render_tokens_amended (d : ZenityDialog) : List String :=
  d.application.get_argv
    ++ optToken d.title (fun t => "--title=" ++ t)
    ++ optToken d.icon (fun i => "--icon-name=" ++ i.to_string)
    ++ optToken d.width (fun w => "--width=" ++ toString w)
    ++ optToken d.height (fun h => "--height=" ++ toString h)
    ++ optToken d.timeout (fun t => "--timeout=" ++ toString t.secs)
    ++ optToken d.extra_button_label (fun l => "--extra-button=" ++ l)
    ++ optToken d.modal_hint (fun m => "--modal=" ++ m)
    ++ d.additional_args

/-- The fixed flag identifying each dialog kind, as listed in the
external-interfaces section of the spec. -/
def kind_flag (a : Application) : String :=
  match a with
  | Application.Info _ => "--info"
  | Application.Calendar _ => "--calendar"
  | Application.Entry => "--entry"
  | Application.Error => "--error"
  | Application.FileSelection => "--file-selection"
  | Application.List => "--list"
  | Application.Notification => "--notification"
  | Application.Progress => "--progress"
  | Application.Question => "--question"
  | Application.Warning => "--warning"
  | Application.Scale => "--scale"
  | Application.TextInfo => "--text-info"
  | Application.ColorSelection => "--color-selection"
  | Application.Password => "--password"
  | Application.Forms => "--forms"

/-- A doubled leading double dash: the string starts with four dash
characters. -/
def has_doubled_dashes (s : String) : Bool :=
  "----".data.isPrefixOf s.data

/-
  Helper lemmas shared by the claim theorems.
-/

/-- Helper: the classification table implemented by show, for a spawn
that completed with a retrievable exit code and UTF-8 decodable stdout
and stderr. -/
theorem show_classifies (d : ZenityDialog) (o : ProcessOutput) (c : Int)
    (out errs : String)
    (hc : o.code = some c) (hout : o.stdout = Except.ok out)
    (herr : o.stderr = Except.ok errs) :
    d.show (SpawnResult.ok o) = Except.ok (
      if c = 0 then
        (if out.isEmpty then ZenityOutput.Affirmed
         else ZenityOutput.AffirmedWithContent out)
      else if c = 1 ∨ c = 256 then
        (if out.isEmpty then ZenityOutput.Rejected
         else ZenityOutput.RejectedWithContent out)
      else ZenityOutput.Unknown c out errs) := by
  simp only [ZenityDialog.show, hout, hc, herr]
  simp only [ZenityDialog.SUCCESS_CODE, ZenityDialog.ERROR_CODE_1, ZenityDialog.ERROR_CODE_2]
  by_cases h0 : c = 0
  · subst h0; cases hemp : out.isEmpty <;> simp
  · by_cases h1 : c = 1
    · subst h1; cases hemp : out.isEmpty <;> simp
    · by_cases h256 : c = 256
      · subst h256; cases hemp : out.isEmpty <;> simp
      · cases hemp : out.isEmpty <;> simp [h0, h1, h256]

/-- Helper: get_argv agrees with the concatenation form that renders
each optional shared field as zero or one token, with the extra button
between timeout and modal hint. -/
theorem get_argv_eq_spec_amended (d : ZenityDialog) :
    d.get_argv = spec_render_tokens_amended d := by
  rcases d with ⟨app, title, icon, w, h, tmo, extra, modal, addl⟩
  cases title <;> cases icon <;> cases w <;> cases h <;> cases tmo <;> cases extra <;>
    cases modal <;>
    simp [ZenityDialog.get_argv, spec_render_tokens_amended, optToken]

/-- Helper: when the extra button label is set, the corresponding token
is in the rendered argument vector. -/
theorem extra_button_token_mem (d : ZenityDialog) (l : String)
    (hl : d.extra_button_label = some l) :
    ("--extra-button=" ++ l) ∈ d.get_argv := by
  rw [get_argv_eq_spec_amended]
  simp [spec_render_tokens_amended, optToken, hl]

/-- Helper: a string that differs from another inside the length of its
first summand is a different string, whatever follows the summand. -/
theorem append_ne_of_lt (a t b : String) (i : Nat) (hi : i < a.data.length)
    (hne : a.data[i]? ≠ b.data[i]?) : a ++ t ≠ b := by
  intro h
  have h2 : (a ++ t).data = b.data := congrArg String.data h
  rw [String.data_append] at h2
  have h3 : (a.data ++ t.data)[i]? = a.data[i]? := List.getElem?_append_left hi
  rw [h2] at h3
  exact hne h3.symm

/-- Helper: no text token of the info kind equals its kind flag. -/
theorem info_ne_text (t : String) : ¬ ("--info" = "--text=" ++ t) :=
  fun h => append_ne_of_lt "--text=" t "--info" 2 (by decide) (by decide) h.symm

/-- Helper: no ok-label token of the info kind equals its kind flag. -/
theorem info_ne_ok_label (t : String) : ¬ ("--info" = "--ok-label=" ++ t) :=
  fun h => append_ne_of_lt "--ok-label=" t "--info" 2 (by decide) (by decide) h.symm

/-- Helper: no text token of the calendar kind equals its kind flag. -/
theorem calendar_ne_text (t : String) : ¬ ("--calendar" = "--text=" ++ t) :=
  fun h => append_ne_of_lt "--text=" t "--calendar" 2 (by decide) (by decide) h.symm

/-- Helper: no day token of the calendar kind equals its kind flag. -/
theorem calendar_ne_day (t : String) : ¬ ("--calendar" = "--day=" ++ t) :=
  fun h => append_ne_of_lt "--day=" t "--calendar" 2 (by decide) (by decide) h.symm

/-- Helper: no month token of the calendar kind equals its kind flag. -/
theorem calendar_ne_month (t : String) : ¬ ("--calendar" = "--month=" ++ t) :=
  fun h => append_ne_of_lt "--month=" t "--calendar" 2 (by decide) (by decide) h.symm

/-- Helper: no year token of the calendar kind equals its kind flag. -/
theorem calendar_ne_year (t : String) : ¬ ("--calendar" = "--year=" ++ t) :=
  fun h => append_ne_of_lt "--year=" t "--calendar" 2 (by decide) (by decide) h.symm

/-- Helper: no date-format token of the calendar kind equals its kind
flag. -/
theorem calendar_ne_format (t : String) : ¬ ("--calendar" = "--date-format=" ++ t) :=
  fun h => append_ne_of_lt "--date-format=" t "--calendar" 2 (by decide) (by decide) h.symm

/-- Helper: the argument vector of every kind is its flag followed by a
rest that never repeats the flag. -/
theorem kind_flag_cons (a : Application) :
    ∃ rest, a.get_argv = kind_flag a :: rest ∧ kind_flag a ∉ rest := by
  cases a with
  | Info o =>
    rcases o with ⟨text, ok_label, nw, nm, el⟩
    cases text <;> cases ok_label <;> cases nw <;> cases nm <;> cases el <;>
      refine ⟨_, rfl, ?_⟩ <;>
      simp [kind_flag, info_ne_text, info_ne_ok_label]
  | Calendar o =>
    rcases o with ⟨text, day, month, year, format⟩
    cases text <;> cases day <;> cases month <;> cases year <;> cases format <;>
      refine ⟨_, rfl, ?_⟩ <;>
      simp [kind_flag, calendar_ne_text, calendar_ne_day, calendar_ne_month,
        calendar_ne_year, calendar_ne_format]
  | Entry => exact ⟨[], rfl, by simp⟩
  | Error => exact ⟨[], rfl, by simp⟩
  | FileSelection => exact ⟨[], rfl, by simp⟩
  | List => exact ⟨[], rfl, by simp⟩
  | Notification => exact ⟨[], rfl, by simp⟩
  | Progress => exact ⟨[], rfl, by simp⟩
  | Question => exact ⟨[], rfl, by simp⟩
  | Warning => exact ⟨[], rfl, by simp⟩
  | Scale => exact ⟨[], rfl, by simp⟩
  | TextInfo => exact ⟨[], rfl, by simp⟩
  | ColorSelection => exact ⟨[], rfl, by simp⟩
  | Password => exact ⟨[], rfl, by simp⟩
  | Forms => exact ⟨[], rfl, by simp⟩

/-- Helper: a list of two dashes that is not a prefix of a character
list stays no prefix when two dashes are prepended together with a
trailer that is empty or begins with an equals sign. -/
theorem two_dash_shape (l : List Char) (h : ['-','-'].isPrefixOf l = true) :
    ∃ t, l = '-' :: '-' :: t := by
  match l with
  | [] => simp [List.isPrefixOf] at h
  | [c] => simp [List.isPrefixOf] at h
  | c1 :: c2 :: t =>
    simp [List.isPrefixOf] at h
    exact ⟨t, by rw [← h.1, ← h.2]⟩

/-- Helper: four dashes are no prefix of two dashes followed by a list
that does not start with two dashes and a trailer that is empty or
starts with an equals sign. -/
theorem not_doubled_core (l rest : List Char)
    (hrest : rest = [] ∨ ∃ v, rest = '=' :: v)
    (h : ['-','-'].isPrefixOf l = false) :
    (['-','-','-','-'].isPrefixOf ('-' :: '-' :: (l ++ rest))) = false := by
  match l with
  | [] => rcases hrest with h1 | ⟨v, h1⟩ <;> subst h1 <;> simp [List.isPrefixOf]
  | [c] => rcases hrest with h1 | ⟨v, h1⟩ <;> subst h1 <;> simp [List.isPrefixOf]
  | c1 :: c2 :: t =>
    simp_all [List.isPrefixOf]
    exact h

/-
  Claim theorems.
-/

/-- C1: for every invocation result of show with a retrievable exit
code and UTF-8 stdout (and decodable stderr, which the Unknown case
reports verbatim), classification depends only on the exit code and
stdout emptiness: exit code 0 yields Affirmed, with content exactly
when stdout is non-empty; exit codes 1 and 256 are treated identically
and yield Rejected, with content exactly when stdout is non-empty; and
every other exit code yields Unknown carrying the exit code, stdout
and stderr verbatim. -/
theorem C1_exit_code_classification (d : ZenityDialog) (o : ProcessOutput)
    (c : Int) (out errs : String)
    (hc : o.code = some c) (hout : o.stdout = Except.ok out)
    (herr : o.stderr = Except.ok errs) :
    d.show (SpawnResult.ok o) = Except.ok (
      if c = 0 then
        (if out.isEmpty then ZenityOutput.Affirmed
         else ZenityOutput.AffirmedWithContent out)
      else if c = 1 ∨ c = 256 then
        (if out.isEmpty then ZenityOutput.Rejected
         else ZenityOutput.RejectedWithContent out)
      else ZenityOutput.Unknown c out errs) :=
  show_classifies d o c out errs hc hout herr

/-- Witness for C1 at a concrete input: exit code 256 with non-empty
stdout classifies as rejected with content. -/
theorem C1_exit_code_classification_witness : ZenityDialog.default.show
      (SpawnResult.ok ⟨some 256, Except.ok "yes", Except.ok "err"⟩)
    = Except.ok (ZenityOutput.RejectedWithContent "yes") := by
  have h := C1_exit_code_classification ZenityDialog.default
    ⟨some 256, Except.ok "yes", Except.ok "err"⟩ 256 "yes" "err" rfl rfl rfl
  simpa using h

/-- C2: for a request decorated with an extra button, show injects the
label as an additional extra-button token, and when the base outcome is
Rejected with content exactly equal to the configured label the result
is remapped to ExtraButtonClicked carrying that label, while all other
outcome shapes pass through unchanged; in particular, with label Maybe,
exit code 1 and stdout Maybe, show returns ExtraButtonClicked with
content Maybe. The decorator type is modelled from the spec because its
definition is missing from the sources. -/
theorem C2_extra_button_remap (d : ZenityDialogExtButton) (o : ProcessOutput)
    (c : Int) (out errs : String)
    (hc : o.code = some c) (hout : o.stdout = Except.ok out)
    (herr : o.stderr = Except.ok errs) :
    ("--extra-button=" ++ d.extra_button_label) ∈ d.decorated.get_argv
    ∧ d.show (SpawnResult.ok o) = Except.ok (
        if c = 0 then
          (if out.isEmpty then ZenityOutputExtButton.Affirmed
           else ZenityOutputExtButton.AffirmedWithContent out)
        else if c = 1 ∨ c = 256 then
          (if out.isEmpty then ZenityOutputExtButton.Rejected
           else if out = d.extra_button_label then
             ZenityOutputExtButton.ExtraButtonClicked d.extra_button_label
           else ZenityOutputExtButton.RejectedWithContent out)
        else ZenityOutputExtButton.Unknown c out errs)
    ∧ (d.extra_button_label = "Maybe" → c = 1 → out = "Maybe" →
        d.show (SpawnResult.ok o)
          = Except.ok (ZenityOutputExtButton.ExtraButtonClicked "Maybe")) := by
  have hmem : ("--extra-button=" ++ d.extra_button_label) ∈ d.decorated.get_argv :=
    extra_button_token_mem d.decorated d.extra_button_label rfl
  have hbase := show_classifies d.decorated o c out errs hc hout herr
  have hshow : d.show (SpawnResult.ok o) = Except.ok (
      if c = 0 then
        (if out.isEmpty then ZenityOutputExtButton.Affirmed
         else ZenityOutputExtButton.AffirmedWithContent out)
      else if c = 1 ∨ c = 256 then
        (if out.isEmpty then ZenityOutputExtButton.Rejected
         else if out = d.extra_button_label then
           ZenityOutputExtButton.ExtraButtonClicked d.extra_button_label
         else ZenityOutputExtButton.RejectedWithContent out)
      else ZenityOutputExtButton.Unknown c out errs) := by
    unfold ZenityDialogExtButton.show
    rw [hbase]
    by_cases h0 : c = 0
    · subst h0; cases hemp : out.isEmpty <;> simp
    · by_cases h1 : c = 1 ∨ c = 256
      · rcases hemp : out.isEmpty with _ | _ <;>
          by_cases hlab : out = d.extra_button_label <;>
          simp [h0, h1, hemp, hlab]
      · cases hemp : out.isEmpty <;> simp [h0, h1]
  refine ⟨hmem, hshow, ?_⟩
  intro hmay h1 hout2
  rw [hshow]
  subst h1 hout2
  simp [hmay, show "Maybe".isEmpty = false from rfl]

/-- Witness for C2 at the concrete scenario of the claim: label Maybe,
exit code 1, stdout Maybe. -/
theorem C2_extra_button_remap_witness :
    ZenityDialogExtButton.show ⟨ZenityDialog.default, "Maybe"⟩
      (SpawnResult.ok ⟨some 1, Except.ok "Maybe", Except.ok ""⟩)
    = Except.ok (ZenityOutputExtButton.ExtraButtonClicked "Maybe") :=
  (C2_extra_button_remap ⟨ZenityDialog.default, "Maybe"⟩
    ⟨some 1, Except.ok "Maybe", Except.ok ""⟩ 1 "Maybe" "" rfl rfl rfl).2.2 rfl rfl rfl

/-- C3 counterexample: the claim says stdout is trimmed before
classification, so stdout consisting only of a newline would classify
with exit code 0 as Affirmed with no content; the code does not trim
and returns Affirmed with the newline as content. -/
theorem C3_counterexample : ZenityDialog.default.show
      (SpawnResult.ok ⟨some 0, Except.ok "\n", Except.ok ""⟩)
    = Except.ok (ZenityOutput.AffirmedWithContent "\n")
    ∧ ZenityOutput.AffirmedWithContent "\n" ≠ ZenityOutput.Affirmed :=
  ⟨rfl, by decide⟩

/-- C3 amended: captured stdout is not trimmed before outcome
classification: emptiness is decided on the raw decoded string, and the
content carried by Affirmed and Rejected outcomes is the raw decoded
string, surrounding whitespace included. -/
theorem C3_untrimmed_classification (d : ZenityDialog) (o : ProcessOutput)
    (out errs : String)
    (hout : o.stdout = Except.ok out) (herr : o.stderr = Except.ok errs) :
    (o.code = some 0 →
      d.show (SpawnResult.ok o) = Except.ok
        (if out.isEmpty then ZenityOutput.Affirmed
         else ZenityOutput.AffirmedWithContent out))
    ∧ (∀ c : Int, (c = 1 ∨ c = 256) → o.code = some c →
      d.show (SpawnResult.ok o) = Except.ok
        (if out.isEmpty then ZenityOutput.Rejected
         else ZenityOutput.RejectedWithContent out)) := by
  constructor
  · intro hc
    have h := show_classifies d o 0 out errs hc hout herr
    simpa using h
  · intro c hc hcode
    have h := show_classifies d o c out errs hcode hout herr
    rcases hc with h1 | h1 <;> subst h1 <;> simpa using h

/-- Witness for the amended C3: stdout with surrounding spaces is
carried verbatim into the rejected outcome. -/
theorem C3_untrimmed_classification_witness : ZenityDialog.default.show
      (SpawnResult.ok ⟨some 1, Except.ok " hi ", Except.ok ""⟩)
    = Except.ok (ZenityOutput.RejectedWithContent " hi ") := by
  have h := (C3_untrimmed_classification ZenityDialog.default
    ⟨some 1, Except.ok " hi ", Except.ok ""⟩ " hi " "" rfl rfl).2 1 (Or.inl rfl) rfl
  simpa using h

/-- C4 counterexample: a name that already starts with four dashes
still renders with a doubled double-dash prefix, because rendering
strips only one leading double dash before re-adding one. -/
theorem C4_counterexample : Arg.to_string ⟨"----x", none⟩ = "----x"
    ∧ has_doubled_dashes (Arg.to_string ⟨"----x", none⟩) = true := by
  decide

/-- C4 amended: for every Arg whose supplied name does not itself begin
with four dashes, the rendered string never begins with a doubled
double-dash prefix, regardless of whether the supplied name already
started with one double dash: rendering strips a leading double dash
from the name and then prepends exactly one. -/
theorem C4_no_doubled_dash (a : Arg)
    (h : ("----".data.isPrefixOf a.name.data) = false) :
    has_doubled_dashes a.to_string = false := by
  unfold has_doubled_dashes Arg.to_string
  by_cases hp : ("--".data.isPrefixOf a.name.data) = true
  · obtain ⟨t, ht⟩ := two_dash_shape a.name.data hp
    have hdrop : (a.name.drop 2).data = t := by
      simp [String.data_drop, ht]
    have h2 : ['-','-'].isPrefixOf t = false := by
      rw [ht] at h
      simpa [List.isPrefixOf] using h
    cases hv : a.value with
    | some v =>
      simp only [hp, if_true, String.data_append, hdrop, List.append_assoc]
      exact not_doubled_core t ('=' :: v.data) (Or.inr ⟨v.data, rfl⟩) h2
    | none =>
      simp only [hp, if_true, String.data_append, hdrop]
      simpa using not_doubled_core t [] (Or.inl rfl) h2
  · have h2 : ['-','-'].isPrefixOf a.name.data = false := by
      cases hb : ("--".data.isPrefixOf a.name.data) with
      | true => exact absurd hb hp
      | false => rfl
    cases hv : a.value with
    | some v =>
      simp only [hp, if_false, String.data_append, List.append_assoc]
      exact not_doubled_core a.name.data ('=' :: v.data) (Or.inr ⟨v.data, rfl⟩) h2
    | none =>
      simp only [hp, if_false, String.data_append]
      simpa using not_doubled_core a.name.data [] (Or.inl rfl) h2

/-- Witness for the amended C4 at a concrete input: a name already
carrying one double dash renders without a doubled prefix. -/
theorem C4_no_doubled_dash_witness :
    has_doubled_dashes (Arg.to_string ⟨"--title", none⟩) = false
    ∧ ("----".data.isPrefixOf "--title".data) = false :=
  ⟨C4_no_doubled_dash ⟨"--title", none⟩ (by decide), by decide⟩

/-- C5: the per-kind output parser of the info, entry and error kinds
is the identity on the captured string; the calendar kind, with date
parsing enabled, parses the trimmed output into a date value with the
configured format string or, when none is configured, the default
format of day, month and two-digit year, and wraps the underlying
parse error in the ParseResultFailure crate error. -/
theorem C5_parse_output
    (pfs : String → String → Except ChronoParseError NaiveDate)
    (i : dialog.Info) (e : dialog.Entry) (er : dialog.Error)
    (c : dialog.Calendar) (s : String) :
    i.parse s = Except.ok s
    ∧ e.parse s = Except.ok s
    ∧ er.parse s = Except.ok s
    ∧ (c.format = none →
        c.parse pfs s = (pfs s.trim "%d/%m/%y").mapError
          (fun err => Error.ParseResultFailure (anyhow_new err)))
    ∧ (∀ f, c.format = some f →
        c.parse pfs s = (pfs s.trim f).mapError
          (fun err => Error.ParseResultFailure (anyhow_new err)))
    ∧ (∀ err, pfs s.trim (c.format.getD dialog.Calendar.DEFAULT_DATE_FORMAT)
          = Except.error err →
        c.parse pfs s = Except.error (Error.ParseResultFailure (anyhow_new err)))
    ∧ (∀ date, pfs s.trim (c.format.getD dialog.Calendar.DEFAULT_DATE_FORMAT)
          = Except.ok date →
        c.parse pfs s = Except.ok date) := by
  refine ⟨rfl, rfl, rfl, ?_, ?_, ?_, ?_⟩
  · intro hf; simp [dialog.Calendar.parse, hf, dialog.Calendar.DEFAULT_DATE_FORMAT]
  · intro f hf; simp [dialog.Calendar.parse, hf]
  · intro err herr; simp [dialog.Calendar.parse, herr, Except.mapError]
  · intro date hdate; simp [dialog.Calendar.parse, hdate, Except.mapError]

/-- Witness for C5 at concrete inputs: a failing date parse surfaces as
a wrapped parse error, and the info parser is the identity. -/
theorem C5_parse_output_witness :
    dialog.Calendar.parse (fun _ _ => Except.error ⟨"invalid date"⟩)
      ⟨none, none, none, none, none⟩ "x"
    = Except.error (Error.ParseResultFailure ⟨"invalid date"⟩)
    ∧ dialog.Info.parse ⟨none, none, false, false, false⟩ "abc" = Except.ok "abc" := by
  constructor
  · have h := (C5_parse_output (fun _ _ => Except.error ⟨"invalid date"⟩)
      ⟨none, none, false, false, false⟩ ⟨none, none, false⟩ ⟨none, false, false⟩
      ⟨none, none, none, none, none⟩ "x").2.2.2.1 rfl
    simpa [Except.mapError] using h
  · exact (C5_parse_output (fun _ _ => Except.error ⟨"invalid date"⟩)
      ⟨none, none, false, false, false⟩ ⟨none, none, false⟩ ⟨none, false, false⟩
      ⟨none, none, none, none, none⟩ "abc").1

/-- C6: show returns every failure as a typed error result and
distinguishes the kinds: a spawn failure of the not-found kind maps to
ZenityNotInstalled, any other spawn failure maps to UnexpectedIoError,
stdout that is not valid UTF-8 maps to InvalidUtf8FromStdout, and a
process with no retrievable exit status maps to MissingExitCode. -/
theorem C6_error_propagation (d : ZenityDialog) :
    (∀ e : IOError, e.kind = IOErrorKind.NotFound →
      d.show (SpawnResult.err e) = Except.error (Error.ZenityNotInstalled e))
    ∧ (∀ e : IOError, e.kind ≠ IOErrorKind.NotFound →
      d.show (SpawnResult.err e) = Except.error (Error.UnexpectedIoError e))
    ∧ (∀ (o : ProcessOutput) (err : FromUtf8Error), o.stdout = Except.error err →
      d.show (SpawnResult.ok o) = Except.error (Error.InvalidUtf8FromStdout err))
    ∧ (∀ (o : ProcessOutput) (out : String), o.stdout = Except.ok out →
      o.code = none →
      d.show (SpawnResult.ok o) = Except.error Error.MissingExitCode) := by
  refine ⟨?_, ?_, ?_, ?_⟩
  · intro e he; simp [ZenityDialog.show, he]
  · intro e he
    cases hk : e.kind <;> simp_all [ZenityDialog.show]
  · intro o err herr; simp [ZenityDialog.show, herr]
  · intro o out hout hcode; simp [ZenityDialog.show, hout, hcode]

/-- Witness for C6 at a concrete input: a not-found spawn failure maps
to the tool-not-installed error. -/
theorem C6_error_propagation_witness :
    ZenityDialog.default.show (SpawnResult.err ⟨IOErrorKind.NotFound⟩)
    = Except.error (Error.ZenityNotInstalled ⟨IOErrorKind.NotFound⟩) :=
  (C6_error_propagation ZenityDialog.default).1 ⟨IOErrorKind.NotFound⟩ rfl

/-- C7 counterexample: with the extra-button field set, the rendered
argument vector contains an extra-button token that the claimed fixed
field list (title, icon, width, height, timeout, modal hint) does not
predict. -/
theorem C7_counterexample :
    ZenityDialog.get_argv { ZenityDialog.default with extra_button_label := some "x" }
      = ["--info", "--extra-button=x"]
    ∧ spec_render_tokens { ZenityDialog.default with extra_button_label := some "x" }
      = ["--info"]
    ∧ ZenityDialog.get_argv { ZenityDialog.default with extra_button_label := some "x" }
      ≠ spec_render_tokens { ZenityDialog.default with extra_button_label := some "x" } :=
  ⟨rfl, rfl, by decide⟩

/-- C7 amended: the rendered argument vector is the kind-configuration
tokens first, then one token for each set shared optional field and no
token for each unset one, in the fixed order title, icon, width,
height, timeout, extra button, modal hint, followed by the accumulated
free-form extra tokens in the order they were appended. -/
theorem C7_render_tokens_order (d : ZenityDialog) :
    d.get_argv = spec_render_tokens_amended d :=
  get_argv_eq_spec_amended d

/-- C8: for every dialog-kind configuration value, the rendered token
sequence is non-empty, its first element is the fixed flag identifying
that kind, and that kind flag appears exactly once. -/
theorem C8_kind_flag_first (a : Application) :
    a.get_argv.head? = some (kind_flag a)
    ∧ a.get_argv.count (kind_flag a) = 1 := by
  obtain ⟨rest, heq, hmem⟩ := kind_flag_cons a
  rw [heq]
  refine ⟨rfl, ?_⟩
  rw [List.count_cons_self, List.count_eq_zero.mpr hmem]

/-- C9: Month values serialize to the numerals 1 through 12 with
January = 1 and December = 12, and a calendar configuration with month
set to December renders the month token with value 12. -/
theorem C9_month_serialization :
    (Month.to_string Month.January = "1"
    ∧ Month.to_string Month.Feburary = "2"
    ∧ Month.to_string Month.March = "3"
    ∧ Month.to_string Month.April = "4"
    ∧ Month.to_string Month.May = "5"
    ∧ Month.to_string Month.June = "6"
    ∧ Month.to_string Month.July = "7"
    ∧ Month.to_string Month.August = "8"
    ∧ Month.to_string Month.September = "9"
    ∧ Month.to_string Month.October = "10"
    ∧ Month.to_string Month.November = "11"
    ∧ Month.to_string Month.December = "12")
    ∧ (∀ c : CalendarOptions, c.month = some Month.December →
        "--month=12" ∈ c.get_argv) := by
  constructor
  · exact ⟨rfl, rfl, rfl, rfl, rfl, rfl, rfl, rfl, rfl, rfl, rfl, rfl⟩
  · intro c hm
    rcases c with ⟨text, day, month, year, format⟩
    cases text <;> cases day <;> cases year <;> cases format <;>
      simp_all [CalendarOptions.get_argv,
        show ("--month=" ++ Month.to_string Month.December) = "--month=12" from rfl]

/-- Witness for C9 at a concrete input: a calendar configuration with
only the month set to December contains the month token with value
12. -/
theorem C9_month_serialization_witness :
    "--month=12" ∈ CalendarOptions.get_argv ⟨none, none, some Month.December, none, none⟩ :=
  (C9_month_serialization).2 ⟨none, none, some Month.December, none, none⟩ rfl

/-- C10: when the exit code is unrecognized and the Unknown outcome is
produced, stderr bytes that are not valid UTF-8 never cause an error:
the stderr field is silently the empty string, in contrast to stdout,
whose invalid UTF-8 is a fatal typed error. -/
theorem C10_stderr_lossy (d : ZenityDialog) (o : ProcessOutput) (c : Int)
    (out : String) (e : FromUtf8Error)
    (hc : o.code = some c) (hout : o.stdout = Except.ok out)
    (herr : o.stderr = Except.error e)
    (h0 : c ≠ 0) (h1 : c ≠ 1) (h256 : c ≠ 256) :
    d.show (SpawnResult.ok o) = Except.ok (ZenityOutput.Unknown c out "")
    ∧ (∀ (o2 : ProcessOutput) (e2 : FromUtf8Error), o2.stdout = Except.error e2 →
        d.show (SpawnResult.ok o2) = Except.error (Error.InvalidUtf8FromStdout e2)) := by
  constructor
  · simp only [ZenityDialog.show, hc, hout, herr]
    cases hemp : out.isEmpty <;>
      simp [h0, h1, h256, ZenityDialog.SUCCESS_CODE, ZenityDialog.ERROR_CODE_1,
        ZenityDialog.ERROR_CODE_2]
  · intro o2 e2 herr2; simp [ZenityDialog.show, herr2]

/-- Witness for C10 at a concrete input: exit code 42 with undecodable
stderr yields Unknown with an empty stderr field and no error. -/
theorem C10_stderr_lossy_witness : ZenityDialog.default.show
      (SpawnResult.ok ⟨some 42, Except.ok "s", Except.error ⟨0⟩⟩)
    = Except.ok (ZenityOutput.Unknown 42 "s" "") :=
  (C10_stderr_lossy ZenityDialog.default ⟨some 42, Except.ok "s", Except.error ⟨0⟩⟩
    42 "s" ⟨0⟩ rfl rfl rfl (by decide) (by decide) (by decide)).1

end Zenity
